import Mathlib

/-!
Verification of the strudel-server Live-Sync Bridge (src/src/main.ts) against
its natural-language specification.

The development shallowly embeds the parts of the program the claims are
about:

* the in-page `page.evaluate` callback of `updateREPLContext` (editor-state
  locator, content injector, evaluation trigger), modelled over a finite
  JavaScript object-graph (`JVal`, `Heap`) and a static page model
  (`PageModel`);
* the debounced file-change detector installed by the `fs.watch` callback,
  modelled as a step function over `DetState` driven by timed events
  (`DetEvent`), with the JavaScript event loop made explicit: a debounce
  timer is a recorded deadline, a timer callback can only run at or after
  its deadline, and an in-flight `updateREPLContext` call is an entry of
  `inFlight` until a `syncComplete` event removes it;
* the CLI argument parser `parseArgs`, the `usage` exit, and the startup
  file validation of the main IIFE;
* the `cleanup` shutdown path, the watcher error handler, and the
  initial-content-load failure path of the main IIFE.
-/

/-! ## JavaScript value model

The locator strategies inspect an uncontrolled object graph.  A `JVal` is a
JavaScript value as far as the code under verification can distinguish them:
`null` covers both `null` and `undefined` (both falsy, and property access on
them is modelled by `getProp` returning `null`, matching the `?.` chains in
the source); `prim b` is any other non-object non-function non-number
primitive with truthiness `b`; `num n` is a (non-negative) number; `func` is
a function; `obj id` points into the heap. -/

inductive JVal where
  | null
  | prim (truthy : Bool)
  | num (n : Nat)
  | func
  | obj (id : Nat)
deriving DecidableEq, Repr

/-- Heap: finite object graph, each object id maps to its enumerable
properties in enumeration order (`Object.keys` / `for..in` order). -/
abbrev Heap := List (Nat × List (String × JVal))

/-- Truthiness of a JavaScript value. -/
def truthy : JVal → Bool
  | .null => false
  | .prim b => b
  | .num n => n != 0
  | .func => true
  | .obj _ => true

/-- Discriminates `typeof v === "object"` for truthy values. -/
def isObjJ : JVal → Bool
  | .obj _ => true
  | _ => false

/-- Discriminates `typeof v === "function"`. -/
def isFuncJ : JVal → Bool
  | .func => true
  | _ => false

/-- Own enumerable properties of a value (non-objects have none that the
code under verification observes). -/
def propsOf (h : Heap) (v : JVal) : List (String × JVal) :=
  match v with
  | .obj id => (h.lookup id).getD []
  | _ => []

/-- Property access `v[k]`; absent properties yield `undefined`, modelled as
`JVal.null`. -/
def getProp (h : Heap) (v : JVal) (k : String) : JVal :=
  ((propsOf h v).lookup k).getD .null

/-- Prefix test over the character list, JavaScript
`String.prototype.startsWith` (kernel-reducible, unlike `String.startsWith`). -/
def strStartsWith (s pre : String) : Bool := pre.data.isPrefixOf s.data

/-- Occurrence of `pat` as a prefix of any suffix of `l`. -/
def charsInfix (pat : List Char) : List Char → Bool
  | [] => pat.isEmpty
  | c :: rest => pat.isPrefixOf (c :: rest) || charsInfix pat rest

/-- Substring test over the character list, JavaScript
`String.prototype.includes`. -/
def strIncludes (s pat : String) : Bool := charsInfix pat.data s.data

/-- Lower-casing over the character list, JavaScript
`String.prototype.toLowerCase` on ASCII data. -/
def strToLower (s : String) : String := String.mk (s.data.map Char.toLower)

/-! ## Page model

A `PageModel` is a snapshot of everything the `updateREPLContext` evaluate
callbacks can observe on the page.  `selectorAppears` models the outcome of
the initial `page.waitForSelector("#code .cm-content[contenteditable='true']")`
call (a separate browser call made before the evaluate callback runs). -/

/-- Result of `document.querySelector` for one of the evaluate-button
selector strings: the selector can raise (invalid selector), match nothing,
or match an element. -/
inductive SelRes where
  | raises
  | notFound
  | found (idx : Nat)
deriving DecidableEq, Repr

/-- A clickable-candidate element found during evaluation-trigger search. -/
structure Button where
  isHTML : Bool
  clickError : Option String
  text : String
  title : String
  ariaLabel : String
deriving DecidableEq, Repr

structure PageModel where
  heap : Heap
  /-- `document.querySelector("#code .cm-editor")`: `null` or an object. -/
  editorElement : JVal
  /-- Object ids of `#code .cm-content` and its ancestors, bottom-up,
  excluding `document.body` (the walk in method 2 stops there);
  empty when `#code .cm-content` is absent. -/
  contentChain : List Nat
  /-- `isContentEditable` of the `#code .cm-content` element. -/
  contentIsEditable : Bool
  /-- `document.querySelector("#code")`. -/
  codeElement : JVal
  /-- Whether `page.waitForSelector("#code .cm-content[contenteditable='true']")`
  succeeds within its 10s timeout. -/
  selectorAppears : Bool
  /-- Results of `document.querySelector` on each evaluate-button selector. -/
  selResults : List (String × SelRes)
  /-- `document.querySelectorAll("button")` in document order. -/
  allButtons : List Button
  /-- Whether `page.click("#code .cm-content")` succeeds. -/
  contentClickable : Bool
deriving DecidableEq, Repr

/-- The element returned by `document.querySelector("#code .cm-content")`. -/
def contentElem (p : PageModel) : JVal :=
  match p.contentChain with
  | [] => .null
  | i :: _ => .obj i

/-! ## Editor-State Locator: the five methods of the evaluate callback -/

/-- Method 1: `if (editorElement.CodeMirror) editorView = editorElement.CodeMirror`. -/
def method1 (p : PageModel) : JVal :=
  let cm := getProp p.heap p.editorElement "CodeMirror"
  if truthy cm then cm else .null

/-- Method 2: walk up from `#code .cm-content` until `document.body`; at the
first ancestor with a truthy `cmView`, take `cmView.view` and stop. -/
def method2 (p : PageModel) : JVal :=
  match p.contentChain.find? (fun i => truthy (getProp p.heap (.obj i) "cmView")) with
  | some i => getProp p.heap (getProp p.heap (.obj i) "cmView") "view"
  | none => .null

/-- Method 3: scan `Object.keys(editorElement)` for the first own property
value that is a truthy object with truthy `state` and a function-typed
truthy `dispatch`. -/
def method3 (p : PageModel) : JVal :=
  match (propsOf p.heap p.editorElement).findSome? (fun kv =>
      let v := kv.snd
      if truthy v && isObjJ v && truthy (getProp p.heap v "state")
          && truthy (getProp p.heap v "dispatch")
          && isFuncJ (getProp p.heap v "dispatch") then some v else none) with
  | some v => v
  | none => .null

/-- Key filter of method 4: React-fiber-style internal property names. -/
def isFiberKey (k : String) : Bool :=
  strStartsWith k "__react" || strStartsWith k "_react"
    || strIncludes k "Fiber" || strIncludes k "Internal"

/-- One iteration of the fiber walk body: check `c.<slot>?.view?.state?.doc`
and return `c.<slot>.view` when the chain ends in a truthy `doc`. -/
def slotView (h : Heap) (c : JVal) (slot : String) : Option JVal :=
  let v := getProp h (getProp h c slot) "view"
  if truthy (getProp h (getProp h v "state") "doc") then some v else none

/-- The fiber walk: up to 30 iterations of `current = current.return`,
checking the `memoizedProps`, `memoizedState` and `stateNode` slots. -/
def fiberFind (h : Heap) : JVal → Nat → Option JVal
  | _, 0 => none
  | c, fuel + 1 =>
    if truthy c = false then none
    else
      match slotView h c "memoizedProps" with
      | some v => some v
      | none =>
        match slotView h c "memoizedState" with
        | some v => some v
        | none =>
          match slotView h c "stateNode" with
          | some v => some v
          | none => fiberFind h (getProp h c "return") fuel

/-- Method 4: for each fiber-named own property of the editor element that
is truthy, walk the fiber tree (depth cap 30); first hit wins. -/
def method4 (p : PageModel) : JVal :=
  match (propsOf p.heap p.editorElement).findSome? (fun kv =>
      if isFiberKey kv.fst then
        if truthy kv.snd = false then none else fiberFind p.heap kv.snd 30
      else none) with
  | some v => v
  | none => .null

/-- Method 5 recursion: `search(obj, maxDepth = 3, currentDepth)`; fuel is
`maxDepth + 1 - currentDepth`, so the top-level call has fuel 4.  The
`for (const key in obj)` loop skips keys starting with `_` or `$` and
returns the first non-null recursive result. -/
def searchObj (h : Heap) : Nat → JVal → JVal
  | 0, _ => .null
  | fuel + 1, v =>
    if truthy v = false ∨ isObjJ v = false then .null
    else if truthy (getProp h v "state") && truthy (getProp h v "dispatch")
        && truthy (getProp h (getProp h v "state") "doc") then v
    else
      match (propsOf h v).findSome? (fun kv =>
          if strStartsWith kv.fst "_" || strStartsWith kv.fst "$" then none
          else match searchObj h fuel kv.snd with
            | .null => none
            | r => some r) with
      | some r => r
      | none => .null

/-- The loop body of the method-5 recursion, named for the lemmas below. -/
def searchKids (h : Heap) (fuel : Nat) (kv : String × JVal) : Option JVal :=
  if strStartsWith kv.fst "_" || strStartsWith kv.fst "$" then none
  else match searchObj h fuel kv.snd with
    | .null => none
    | r => some r

/-- Method 5: bounded recursive structural search from `#code` (skipped when
`#code` is absent). -/
def method5 (p : PageModel) : JVal :=
  if truthy p.codeElement then searchObj p.heap 4 p.codeElement else .null

/-- The locator of the evaluate callback: methods 1-5 tried in order, the
first truthy result wins; the residual value when every method fails is
falsy. -/
def locateEditorView (p : PageModel) : JVal :=
  let v1 := method1 p
  if truthy v1 then v1 else
  let v2 := method2 p
  if truthy v2 then v2 else
  let v3 := method3 p
  if truthy v3 then v3 else
  let v4 := method4 p
  if truthy v4 then v4 else method5 p

/-- Spec-side combinator: first truthy value of a strategy list, `null` when
all strategies fail. -/
def firstTruthy : List JVal → JVal
  | [] => .null
  | v :: vs => if truthy v then v else firstTruthy vs

/-! ## Content Injector: the rest of the first evaluate callback -/

/-- The CodeMirror transaction constructed on the API path:
`{ changes: { from: 0, to: editorView.state.doc.length, insert: newContent } }`. -/
structure Tx where
  txFrom : Nat
  txTo : JVal
  insert : String
deriving DecidableEq, Repr

/-- Outcome value returned by the first evaluate callback. -/
inductive InjResult where
  | api (docLength : JVal) (tx : Tx)
  | contenteditable (docLength : Nat) (written : String)
deriving DecidableEq, Repr

/-- The first `page.evaluate` callback of `updateREPLContext`: throw when
`#code .cm-editor` is absent; locate the editor view; when the result is
truthy with truthy `state` and `dispatch`, dispatch a full-document
replacement (API path); otherwise fall back to the contenteditable node when
it is present and editable, and throw when it is not. -/
def updateEvalCallback (p : PageModel) (newContent : String) : Except String InjResult :=
  if truthy p.editorElement = false then
    .error "CodeMirror editor element not found"
  else
    let ev := locateEditorView p
    if truthy ev && truthy (getProp p.heap ev "state")
        && truthy (getProp p.heap ev "dispatch") then
      let doc := getProp p.heap (getProp p.heap ev "state") "doc"
      .ok (.api (getProp p.heap doc "length")
        { txFrom := 0, txTo := getProp p.heap doc "length", insert := newContent })
    else
      if truthy (contentElem p) && p.contentIsEditable then
        .ok (.contenteditable newContent.length newContent)
      else
        .error "CodeMirror EditorView not accessible via any known method"

/-! ## Evaluation Trigger: the second evaluate callback plus the keyboard
fallback that follows it in `updateREPLContext` -/

/-- The fixed selector list of the first trigger pass, in source order. -/
def evalSelectors : List String :=
  [ "button[title*=\"evaluate\" i]",
    "button[aria-label*=\"evaluate\" i]",
    "button[title*=\"ctrl+enter\" i]",
    "button:has(svg):has-text(\"play\")",
    "button svg[class*=\"play\"]",
    "[role=\"button\"][title*=\"evaluate\" i]" ]

/-- `document.querySelector` on a trigger selector; selectors absent from
the model match nothing. -/
def querySel (p : PageModel) (s : String) : SelRes :=
  (p.selResults.lookup s).getD .notFound

/-- Button lookup for `SelRes.found` indices. -/
def buttonAt (p : PageModel) (i : Nat) : Button :=
  (p.allButtons.get? i).getD ⟨false, none, "", "", ""⟩

/-- First trigger pass: each selector is tried inside its own `try` block
(a raising selector, a missing element, a non-HTMLElement match, and a
throwing `click()` all fall through to the next selector); the first
selector whose element is an `HTMLElement` and whose `click()` returns
normally wins. -/
def firstPassResult (p : PageModel) : Option String :=
  evalSelectors.findSome? fun s =>
    match querySel p s with
    | .found i =>
      let b := buttonAt p i
      if b.isHTML && b.clickError.isNone then some s else none
    | _ => none

/-- The match predicate of the second trigger pass over all `button`
elements: lowercased text/title/aria-label containing "play"/"eval"
(title also "ctrl"). -/
def matchesEvalButton (b : Button) : Bool :=
  let text := strToLower b.text
  let title := strToLower b.title
  let aria := strToLower b.ariaLabel
  strIncludes text "play" || strIncludes text "eval"
    || strIncludes title "play" || strIncludes title "eval"
    || strIncludes title "ctrl"
    || strIncludes aria "play" || strIncludes aria "eval"

/-- Second trigger pass: linear scan of all buttons, first match wins.  The
scan and the `click()` on the match run outside any `try` block inside the
evaluate callback. -/
def secondPassMatch (p : PageModel) : Option Button :=
  p.allButtons.find? matchesEvalButton

/-- How evaluation was triggered. -/
inductive TrigResult where
  | button (selector : String)
  | keyboard
deriving DecidableEq, Repr

/-- The evaluation-trigger phase of `updateREPLContext`: the two selector
passes inside `page.evaluate`, then — only when the callback returned
`{ success: false }` — the keyboard fallback
(`page.click("#code .cm-content")` + `Control+Enter`).  A `click()` that
throws in the second pass rejects the evaluate call and the error
propagates; a failing `page.click` in the fallback also propagates. -/
def triggerEvaluation (p : PageModel) : Except String TrigResult :=
  match firstPassResult p with
  | some s => .ok (.button s)
  | none =>
    match secondPassMatch p with
    | some b =>
      match b.clickError with
      | some e => .error e
      | none => .ok (.button "text-based-search")
    | none =>
      if p.contentClickable then .ok .keyboard
      else .error "page click failed"

/-- Combined result of one sync attempt. -/
structure SyncReport where
  injection : InjResult
  trigger : TrigResult
deriving DecidableEq, Repr

/-- `updateREPLContext(page, content)`: wait for the contenteditable
selector (a timeout rejects), run the injection callback, settle, run the
trigger phase.  The surrounding `try/catch` logs any error and rethrows it,
so every failure surfaces to the caller as `Except.error`. -/
def updateREPLContext (p : PageModel) (content : String) : Except String SyncReport :=
  if p.selectorAppears = false then .error "waitForSelector timeout"
  else
    match updateEvalCallback p content with
    | .error e => .error e
    | .ok inj =>
      match triggerEvaluation p with
      | .error e => .error e
      | .ok trig => .ok { injection := inj, trigger := trig }

/-! ## CLI boundary: `parseArgs`, `usage`, and the startup file check

`usage()` prints the help text and calls `process.exit(0)` on every path,
including the error paths ("No file specified.", "Unknown argument").  The
numeric log levels live in `src/logging/slog`, which is referenced but not
needed by any claim; `levelInfo` is therefore a parameter. -/

/-- Outcome of `parseArgs`: either the process exited through `usage()`
(recording the exit code and that usage text was printed), or parsing
produced a file and a verbosity. -/
inductive CliOutcome where
  | exited (code : Nat) (printedUsage : Bool)
  | proceed (file : String) (verbosity : Int)
deriving DecidableEq, Repr

/-- Length of the full match of `/^-v+$/`, or 0 when the argument does not
match (the source uses `arg.match(/^-v+$/)?.[0].length ?? 0`). -/
def vCount (s : String) : Nat :=
  if strStartsWith s "-v" && (s.data.drop 1).all (· = 'v') then s.data.length else 0

/-- The argument loop of `parseArgs`: empty strings are skipped, `-h` or
`--help` exits through `usage()`, arguments starting with `-v` set the
verbosity, the first other argument becomes the file, and a second one is
an unknown argument exiting through `usage()`. -/
def parseArgsGo (levelInfo : Int) : List String → Option String → Int → CliOutcome
  | [], none, _ => .exited 0 true
  | [], some f, v => .proceed f v
  | a :: rest, fileAcc, v =>
    if a = "" then parseArgsGo levelInfo rest fileAcc v
    else if a = "-h" ∨ a = "--help" then .exited 0 true
    else if strStartsWith a "-v" then
      parseArgsGo levelInfo rest fileAcc (levelInfo - (vCount a : Int))
    else
      match fileAcc with
      | none => parseArgsGo levelInfo rest (some a) v
      | some _ => .exited 0 true

/-- `parseArgs(args)` with initial verbosity `slog.LevelInfo`. -/
def parseArgs (levelInfo : Int) (args : List String) : CliOutcome :=
  parseArgsGo levelInfo args none levelInfo

/-- Startup outcome of the main IIFE up to the file validation. -/
inductive StartupOutcome where
  | usageExit (code : Nat)
  | errorExit (code : Nat) (msg : String)
  | started (file : String) (verbosity : Int)
deriving DecidableEq, Repr

/-- The main IIFE from argument parsing through the file checks:
`path.resolve`, `fs.existsSync`, `fs.lstatSync(..).isFile()` are environment
functions passed as parameters.  A missing or non-regular file prints an
error message (not the usage text) and exits 1. -/
def cliStartup (levelInfo : Int) (fsExists fsIsFile : String → Bool)
    (resolve : String → String) (args : List String) : StartupOutcome :=
  match parseArgs levelInfo args with
  | .exited c _ => .usageExit c
  | .proceed f v =>
    let fp := resolve f
    if fsExists fp = false then .errorExit 1 ("File does not exist: " ++ fp)
    else if fsIsFile fp = false then .errorExit 1 ("File is not a file: " ++ fp)
    else .started fp v

/-! ## Process shutdown model: `cleanup`, the watcher error handler, and the
initial-content-load failure path -/

/-- Coarse process state for the shutdown paths.  `exitCode = some c` means
the process has terminated with code `c`; once set, no later step changes
anything (execution has stopped). -/
structure SysState where
  watcherActive : Bool
  browserActive : Bool
  watcherClosed : Bool
  browserClosed : Bool
  errorLogged : Bool
  exitCode : Option Nat
deriving DecidableEq, Repr

/-- `process.exit(c)`: terminates the process unless it already terminated. -/
def exitProc (c : Nat) (s : SysState) : SysState :=
  if s.exitCode.isSome then s else { s with exitCode := some c }

/-- `cleanup()`: close the watcher if one exists, close the browser if one
exists, then `process.exit(0)`. -/
def cleanup (s : SysState) : SysState :=
  let s1 := if s.watcherActive then { s with watcherClosed := true } else s
  let s2 := if s1.browserActive then { s1 with browserClosed := true } else s1
  exitProc 0 s2

/-- The `watcher.on("error", ...)` handler: log the error, then `cleanup()`. -/
def watcherErrorHandler (s : SysState) : SysState :=
  cleanup { s with errorLogged := true }

/-- Starting `fs.watch` (only reached if the process is still alive). -/
def startWatcher (s : SysState) : SysState :=
  if s.exitCode.isSome then s else { s with watcherActive := true }

/-- The initial-content-load step of the main IIFE: on failure of
`updateREPLContext` the catch block logs, awaits `cleanup()` (which exits
with code 0), and only then would run `process.exit(1)`. -/
def initialLoad (injectionFails : Bool) (s : SysState) : SysState :=
  if injectionFails then exitProc 1 (cleanup { s with errorLogged := true })
  else s

/-- Initial load followed by installing the file watcher. -/
def startupRun (injectionFails : Bool) (s : SysState) : SysState :=
  startWatcher (initialLoad injectionFails s)

/-! ## Change Detector: the `fs.watch` callback with its debounce timer

The callback watches the parent directory and filters on the target file
name.  Each matching raw event clears and re-arms a 150ms `setTimeout`;
the timer body checks existence, compares `stats.mtimeMs` against
`lastMtime`, records the new mtime, reads the file, and awaits
`updateREPLContext` — all inside one `try/catch` that logs and swallows
errors.

The event-loop semantics is made explicit.  Time is in milliseconds.  The
armed timer is recorded as its absolute deadline; a `timerFire t` event is
the timer callback running at time `t`, which is a no-op if no timer is
armed or if `t` is before the deadline (the real callback cannot run
early, and re-arming replaced any earlier deadline).  Starting
`await updateREPLContext(page, contents)` appends the passed content to
`inFlight` and to `emitted`; `syncComplete i` is that promise settling.
`reads` counts `fs.readFileSync` attempts, including failing ones. -/

def debounceMs : Nat := 150

structure DetState where
  /-- Whether the watched file currently exists. -/
  fileExists : Bool
  /-- Current `mtimeMs` of the watched file. -/
  fileMtime : Nat
  /-- Current content of the watched file. -/
  fileContent : String
  /-- Whether `fs.readFileSync` on the file currently succeeds. -/
  readable : Bool
  /-- The callback's `lastMtime` variable. -/
  lastMtime : Nat
  /-- Armed debounce timer, as an absolute deadline. -/
  timer : Option Nat
  /-- Contents of `updateREPLContext` calls still in flight, oldest first. -/
  inFlight : List String
  /-- Contents of all `updateREPLContext` calls ever started, in order. -/
  emitted : List String
  /-- Number of `fs.readFileSync` attempts. -/
  reads : Nat
deriving DecidableEq, Repr

/-- External and scheduler events driving the detector.  `write` is an
editor saving the watched file (it updates the file state and, like any
filesystem notification for the target name, re-arms the debounce timer);
`fsEvent` is a raw `fs.watch` notification carrying a file name; `unlink`
removes the file (mid-atomic-write state); `chmod` flips readability
without a notification; `timerFire` is the debounce timer callback running;
`syncComplete i` removes the `i`-th in-flight sync. -/
inductive DetEvent where
  | fsEvent (t : Nat) (name : String)
  | write (t : Nat) (content : String) (mtime : Nat) (readable : Bool)
  | unlink (t : Nat)
  | chmod (readable : Bool)
  | timerFire (t : Nat)
  | syncComplete (i : Nat)
deriving DecidableEq, Repr

/-- One step of the detector.  `wname` is `path.basename(filePath)`, the
name the callback filters on. -/
def step (wname : String) (s : DetState) (e : DetEvent) : DetState :=
  match e with
  | .fsEvent t name =>
    if name = wname then { s with timer := some (t + debounceMs) } else s
  | .write t c m r =>
    { s with fileExists := true, fileContent := c, fileMtime := m,
             readable := r, timer := some (t + debounceMs) }
  | .unlink t => { s with fileExists := false, timer := some (t + debounceMs) }
  | .chmod r => { s with readable := r }
  | .timerFire t =>
    match s.timer with
    | none => s
    | some d =>
      if t < d then s
      else
        let s1 := { s with timer := none }
        if s1.fileExists = false then s1
        else if s1.fileMtime = s1.lastMtime then s1
        else
          let s2 := { s1 with lastMtime := s1.fileMtime, reads := s1.reads + 1 }
          if s2.readable = false then s2
          else { s2 with inFlight := s2.inFlight ++ [s2.fileContent],
                         emitted := s2.emitted ++ [s2.fileContent] }
  | .syncComplete i => { s with inFlight := s.inFlight.eraseIdx i }

/-- Detector state right after `fs.watch` is installed: `lastMtime` is the
initial `fs.statSync(filePath).mtimeMs`, no timer armed, nothing in flight. -/
def detInit (c : String) (m : Nat) : DetState :=
  { fileExists := true, fileMtime := m, fileContent := c, readable := true,
    lastMtime := m, timer := none, inFlight := [], emitted := [], reads := 0 }

/-- The watched file name used by the concrete traces. -/
def targetName : String := "song.strudel"

/-- A burst of events that stays inside the debounce window: only raw
notifications, writes, unlinks, readability flips and timer callbacks that
run strictly before the currently armed deadline (so no timer body
executes during the burst). -/
def burstOk (wname : String) : DetState → List DetEvent → Bool
  | _, [] => true
  | s, e :: es =>
    (match e with
     | .timerFire t =>
       match s.timer with
       | some d => decide (t < d)
       | none => false
     | .syncComplete _ => false
     | _ => true) && burstOk wname (step wname s e) es

/-- Content of the last `write` event in a list, if any. -/
def lastWriteContent : List DetEvent → Option String
  | [] => none
  | e :: es =>
    match lastWriteContent es with
    | some c => some c
    | none =>
      match e with
      | .write _ c _ _ => some c
      | _ => none

/-! ## Concrete fixtures used by the per-claim theorems -/

/-- Detector start state for the claim C1 trace. -/
def c1state : DetState := detInit "init" 1

/-- Claim C1 trace: a write of Z fires and its sync starts; writes of A and B
arrive (within one debounce window of each other) while that sync is still in
flight; the debounce timer then fires once more. -/
def c1trace : List DetEvent :=
  [.write 0 "Z" 2 true, .timerFire 150, .write 200 "A" 3 true,
   .write 300 "B" 4 true, .timerFire 450]

/-- Detector start state for the claim C4 trace. -/
def c4state : DetState := detInit "old" 1

/-- Claim C4 trace: a write lands but the file is unreadable when the
debounce timer fires; readability then returns and another raw event for the
same write re-fires the timer. -/
def c4trace : List DetEvent :=
  [.write 0 "new" 2 false, .timerFire 150, .chmod true,
   .fsEvent 200 targetName, .timerFire 350]

/-- Page for the claim C2 counterexample: `#code .cm-content` present and
editable (so the degraded path is available and the selector wait succeeds),
but `#code .cm-editor` is absent. -/
def pageC2 : PageModel :=
  { heap := [], editorElement := .null, contentChain := [5],
    contentIsEditable := true, codeElement := .obj 4, selectorAppears := true,
    selResults := [], allButtons := [], contentClickable := true }

/-- Page for the claim C2 amended-theorem witness: the editor element exists
but carries nothing any strategy can find, and the content element is
editable. -/
def pageC2w : PageModel :=
  { heap := [(1, [])], editorElement := .obj 1, contentChain := [5],
    contentIsEditable := true, codeElement := .null, selectorAppears := true,
    selResults := [], allButtons := [], contentClickable := true }

/-- Page for the claim C6 witness: method 1 finds a view exposing
`state.doc.length` and a callable `dispatch`. -/
def pageC6w : PageModel :=
  { heap := [(1, [("CodeMirror", .obj 2)]),
             (2, [("state", .obj 3), ("dispatch", .func)]),
             (3, [("doc", .obj 4)]), (4, [("length", .num 7)])],
    editorElement := .obj 1, contentChain := [5], contentIsEditable := true,
    codeElement := .obj 6, selectorAppears := true, selResults := [],
    allButtons := [], contentClickable := true }

/-- Page for the claim C7 counterexample: injection succeeds through the
transactional path, no trigger selector matches, and the single button on the
page matches the second-pass text scan but throws when clicked. -/
def pageC7 : PageModel :=
  { heap := [(1, [("CodeMirror", .obj 2)]),
             (2, [("state", .obj 3), ("dispatch", .func)]),
             (3, [("doc", .obj 4)]), (4, [("length", .num 7)])],
    editorElement := .obj 1, contentChain := [5], contentIsEditable := true,
    codeElement := .null, selectorAppears := true, selResults := [],
    allButtons := [{ isHTML := true, clickError := some "TypeError: boom",
                     text := "play", title := "", ariaLabel := "" }],
    contentClickable := true }

/-- Page for the claim C7 amended-theorem witness: one selector raises (as
the nonstandard `:has-text` selector does in a real browser), no button
matches the text scan, and the contenteditable region is clickable. -/
def pageC7w : PageModel :=
  { heap := [], editorElement := .null, contentChain := [],
    contentIsEditable := false, codeElement := .null, selectorAppears := true,
    selResults := [("button:has(svg):has-text(\"play\")", .raises)],
    allButtons := [{ isHTML := true, clickError := none,
                     text := "stop", title := "", ariaLabel := "" }],
    contentClickable := true }

/-- A live system state: watcher and browser up, process alive. -/
def sysRunning : SysState :=
  { watcherActive := true, browserActive := true, watcherClosed := false,
    browserClosed := false, errorLogged := false, exitCode := none }

/-- System state at initial-content-load time: browser up, watcher not yet
installed. -/
def sysBoot : SysState :=
  { watcherActive := false, browserActive := true, watcherClosed := false,
    browserClosed := false, errorLogged := false, exitCode := none }

/-- Detector state at the first C4 timer firing: fresh write on disk, file
unreadable, timer armed. -/
def c4fire : DetState :=
  { fileExists := true, fileMtime := 2, fileContent := "new", readable := false,
    lastMtime := 1, timer := some 150, inFlight := [], emitted := [], reads := 0 }

/-! ## Supporting lemmas -/

/-- Unfolding of `searchObj` at positive fuel in terms of `searchKids`. -/
theorem searchObj_succ_eq (h : Heap) (fuel : Nat) (v : JVal) :
    searchObj h (fuel + 1) v
      = (if truthy v = false ∨ isObjJ v = false then .null
         else if truthy (getProp h v "state") && truthy (getProp h v "dispatch")
             && truthy (getProp h (getProp h v "state") "doc") then v
         else
           match (propsOf h v).findSome? (searchKids h fuel) with
           | some r => r
           | none => .null) := rfl

/-- A timer callback scheduled for deadline `d` cannot run before `d`:
such a `timerFire` is a non-event. -/
theorem step_timerFire_early (wname : String) (s : DetState) (t d : Nat)
    (htm : s.timer = some d) (hlt : t < d) :
    step wname s (.timerFire t) = s := by
  simp [step, htm, hlt]

/-- An `fsEvent` only (possibly) re-arms the timer. -/
theorem step_fsEvent_eq (wname : String) (s : DetState) (t : Nat) (name : String) :
    step wname s (.fsEvent t name)
      = (if name = wname then { s with timer := some (t + debounceMs) } else s) := by
  simp [step]

/-- Only `write` events change `fileContent`, and the last one wins. -/
theorem foldl_fileContent (wname : String) : ∀ (es : List DetEvent) (s : DetState),
    (List.foldl (step wname) s es).fileContent
      = (lastWriteContent es).getD s.fileContent := by
  intro es
  induction es with
  | nil => intro s; rfl
  | cons e es ih =>
    intro s
    rw [List.foldl_cons, ih]
    cases hlw : lastWriteContent es with
    | some c => simp [lastWriteContent, hlw]
    | none =>
      have hred : lastWriteContent (e :: es)
          = (match e with | .write _ c _ _ => some c | _ => none) := by
        simp [lastWriteContent, hlw]
      rw [hred]
      cases e with
      | fsEvent t name => by_cases h : name = wname <;> simp [step, h]
      | write t c m r => rfl
      | unlink t => rfl
      | chmod r => rfl
      | timerFire t =>
        simp only [Option.getD_none, Option.getD]
        cases htm : s.timer with
        | none => simp [step, htm]
        | some d =>
          by_cases hlt : t < d
          · rw [step_timerFire_early wname s t d htm hlt]
          · simp only [step, htm]
            simp only [if_neg hlt]
            by_cases hex : s.fileExists = false
            · simp [hex]
            · simp only [hex, if_false]
              by_cases hmt : s.fileMtime = s.lastMtime
              · simp [hmt]
              · simp only [hmt, if_false]
                by_cases hrd : s.readable = false <;> simp [hrd]
      | syncComplete i => rfl

/-- During a burst inside the debounce window, the detector's outputs do not
change: nothing is emitted or started, no reads happen, and `lastMtime` is
untouched. -/
theorem burst_preserves (wname : String) : ∀ (es : List DetEvent) (s : DetState),
    burstOk wname s es = true →
    (List.foldl (step wname) s es).emitted = s.emitted
    ∧ (List.foldl (step wname) s es).inFlight = s.inFlight
    ∧ (List.foldl (step wname) s es).lastMtime = s.lastMtime
    ∧ (List.foldl (step wname) s es).reads = s.reads := by
  intro es
  induction es with
  | nil => intro s _; exact ⟨rfl, rfl, rfl, rfl⟩
  | cons e es ih =>
    intro s hb
    rw [List.foldl_cons]
    cases e with
    | fsEvent t name =>
      have hrest : burstOk wname (step wname s (.fsEvent t name)) es = true := by
        simp only [burstOk, Bool.and_eq_true, true_and] at hb; exact hb
      obtain ⟨h1, h2, h3, h4⟩ := ih _ hrest
      by_cases h : name = wname <;>
        simp_all [step_fsEvent_eq]
    | write t c m r =>
      have hrest : burstOk wname (step wname s (.write t c m r)) es = true := by
        simp only [burstOk, Bool.and_eq_true, true_and] at hb; exact hb
      obtain ⟨h1, h2, h3, h4⟩ := ih _ hrest
      exact ⟨h1, h2, h3, h4⟩
    | unlink t =>
      have hrest : burstOk wname (step wname s (.unlink t)) es = true := by
        simp only [burstOk, Bool.and_eq_true, true_and] at hb; exact hb
      obtain ⟨h1, h2, h3, h4⟩ := ih _ hrest
      exact ⟨h1, h2, h3, h4⟩
    | chmod r =>
      have hrest : burstOk wname (step wname s (.chmod r)) es = true := by
        simp only [burstOk, Bool.and_eq_true, true_and] at hb; exact hb
      obtain ⟨h1, h2, h3, h4⟩ := ih _ hrest
      exact ⟨h1, h2, h3, h4⟩
    | timerFire t =>
      simp only [burstOk, Bool.and_eq_true] at hb
      obtain ⟨hg, hrest⟩ := hb
      cases htm : s.timer with
      | none => rw [htm] at hg; simp at hg
      | some d =>
        rw [htm] at hg
        simp only [decide_eq_true_eq] at hg
        have hstep : step wname s (.timerFire t) = s :=
          step_timerFire_early wname s t d htm hg
        rw [hstep] at hrest ⊢
        exact ih s hrest
    | syncComplete i =>
      simp only [burstOk, Bool.false_and] at hb
      exact absurd hb (by simp)

/-! ## Locator lemmas: every method reports failure as a falsy value, and
the chained assignments in the evaluate callback implement first-success-wins
over the ordered strategy list -/

/-- The method-5 recursion only ever returns `null` or a truthy value (the
structural check guards every returned candidate). -/
theorem searchObj_null_or_truthy (h : Heap) : ∀ (fuel : Nat) (v : JVal),
    searchObj h fuel v = .null ∨ truthy (searchObj h fuel v) = true := by
  intro fuel
  induction fuel with
  | zero => intro v; exact Or.inl rfl
  | succ f ih =>
    intro v
    rw [searchObj_succ_eq]
    by_cases h1 : truthy v = false ∨ isObjJ v = false
    · simp [h1]
    · simp only [h1, if_false]
      by_cases h2 : truthy (getProp h v "state") && truthy (getProp h v "dispatch")
          && truthy (getProp h (getProp h v "state") "doc")
      · simp only [h2, if_true]
        right
        cases hb : truthy v with
        | false => exact absurd (Or.inl hb) h1
        | true => rfl
      · simp only [h2, if_false, Bool.false_eq_true]
        cases hfs : (propsOf h v).findSome? (searchKids h f) with
        | none => exact Or.inl rfl
        | some r =>
          right
          obtain ⟨kv, _, hkv⟩ := List.exists_of_findSome?_eq_some hfs
          rw [searchKids] at hkv
          by_cases hk : strStartsWith kv.fst "_" || strStartsWith kv.fst "$"
          · rw [if_pos hk] at hkv; cases hkv
          · rw [if_neg hk] at hkv
            rcases ih kv.snd with hn | ht
            · rw [hn] at hkv; cases hkv
            · cases hso : searchObj h f kv.snd with
              | null => rw [hso] at ht; cases ht
              | prim b => rw [hso] at ht hkv; simp at hkv; rw [hkv] at ht; exact ht
              | num n => rw [hso] at ht hkv; simp at hkv; rw [hkv] at ht; exact ht
              | func => rw [hso] at ht hkv; simp at hkv; rw [hkv] at ht; exact ht
              | obj id => rw [hso] at ht hkv; simp at hkv; rw [hkv] at ht; exact ht

/-- A failed method 5 leaves `editorView` equal to `null`. -/
theorem method5_falsy_null (p : PageModel) (ht : truthy (method5 p) = false) :
    method5 p = .null := by
  revert ht
  unfold method5
  by_cases hc : truthy p.codeElement
  · simp only [hc, if_true]
    intro ht
    rcases searchObj_null_or_truthy p.heap 4 p.codeElement with hn | htr
    · exact hn
    · rw [htr] at ht; cases ht
  · simp [hc]

/-- The chained `if (!editorView)` assignments of the evaluate callback
implement first-success-wins over the ordered strategy list: the locator
result is the first truthy strategy result, and `null` when all five
strategies fail. -/
theorem locateEditorView_eq_firstTruthy (p : PageModel) :
    locateEditorView p
      = firstTruthy [method1 p, method2 p, method3 p, method4 p, method5 p] := by
  simp only [locateEditorView, firstTruthy]
  by_cases h1 : truthy (method1 p)
  · simp [h1]
  · simp only [h1, if_false]
    by_cases h2 : truthy (method2 p)
    · simp [h2]
    · simp only [h2, if_false]
      by_cases h3 : truthy (method3 p)
      · simp [h3]
      · simp only [h3, if_false]
        by_cases h4 : truthy (method4 p)
        · simp [h4]
        · simp only [h4, if_false]
          by_cases h5 : truthy (method5 p)
          · simp [h5]
          · simp only [h5, if_false]
            exact method5_falsy_null p (by revert h5; cases truthy (method5 p) <;> simp)

/-! ## Claim theorems -/

/-- Claim C5 (confirmed): a debounce-timer firing that finds the file's
modification time equal to the last recorded one produces no ChangeEvent —
the callback returns before reading the file or starting a sync, so the
state is unchanged except for the spent timer (`emitted`, `inFlight`,
`reads` and `lastMtime` all untouched); a write that does not advance the
modification time never triggers a sync. -/
theorem c5_mtime_guard (w : String) (s : DetState) (t d : Nat)
    (htimer : s.timer = some d) (hdue : d ≤ t)
    (hex : s.fileExists = true) (hm : s.fileMtime = s.lastMtime) :
    step w s (.timerFire t) = { s with timer := none } := by
  simp [step, htimer, Nat.not_lt.mpr hdue, hex, hm]

/-- Witness for C5: concrete due timer, file present, mtime unchanged. -/
theorem c5_mtime_guard_witness :
    step targetName { detInit "a" 5 with timer := some 150 } (.timerFire 200)
      = { detInit "a" 5 with timer := none } :=
  c5_mtime_guard targetName { detInit "a" 5 with timer := some 150 } 200 150
    rfl (by decide) rfl rfl

/-- Claim C9 (confirmed): for any burst of raw filesystem events, writes and
transient removals that stays inside the debounce window, followed by one
timer firing after the last deadline, the detector emits exactly one
ChangeEvent, and the content it carries is the file content as of the end of
the burst — by `foldl_fileContent` the content of the last write — never an
intermediate version.  (A fire observing an unchanged mtime, a missing or an
unreadable file emits nothing; those cases are the subject of claims C4/C5.) -/
theorem c9_debounce_coalesce (w : String) (s : DetState) (es : List DetEvent)
    (c : String) (tf d : Nat)
    (hb : burstOk w s es = true)
    (hw : lastWriteContent es = some c)
    (ht : (List.foldl (step w) s es).timer = some d)
    (hdue : d ≤ tf)
    (hex : (List.foldl (step w) s es).fileExists = true)
    (hrd : (List.foldl (step w) s es).readable = true)
    (hm : (List.foldl (step w) s es).fileMtime
        ≠ (List.foldl (step w) s es).lastMtime) :
    (List.foldl (step w) s (es ++ [.timerFire tf])).emitted = s.emitted ++ [c]
    ∧ (List.foldl (step w) s (es ++ [.timerFire tf])).inFlight
        = s.inFlight ++ [c] := by
  have hpres := burst_preserves w es s hb
  have hcontent := foldl_fileContent w es s
  have hfc : (List.foldl (step w) s es).fileContent = c := by
    rw [hcontent, hw]; rfl
  rw [List.foldl_append]
  have hone : List.foldl (step w) (List.foldl (step w) s es) [.timerFire tf]
      = step w (List.foldl (step w) s es) (.timerFire tf) := rfl
  rw [hone]
  constructor
  · have : (step w (List.foldl (step w) s es) (.timerFire tf)).emitted
        = (List.foldl (step w) s es).emitted
          ++ [(List.foldl (step w) s es).fileContent] := by
      simp [step, ht, Nat.not_lt.mpr hdue, hex, hm, hrd]
    rw [this, hpres.1, hfc]
  · have : (step w (List.foldl (step w) s es) (.timerFire tf)).inFlight
        = (List.foldl (step w) s es).inFlight
          ++ [(List.foldl (step w) s es).fileContent] := by
      simp [step, ht, Nat.not_lt.mpr hdue, hex, hm, hrd]
    rw [this, hpres.2.1, hfc]

/-- Witness for C9: two rapid writes 50ms apart, then the timer fires; one
sync starts, carrying the second write's content. -/
theorem c9_debounce_coalesce_witness :
    (List.foldl (step targetName) (detInit "a" 1)
        ([.write 0 "b" 2 true, .write 50 "c" 3 true] ++ [.timerFire 200])).emitted
      = ["c"]
    ∧ (List.foldl (step targetName) (detInit "a" 1)
        ([.write 0 "b" 2 true, .write 50 "c" 3 true] ++ [.timerFire 200])).inFlight
      = ["c"] :=
  c9_debounce_coalesce targetName (detInit "a" 1)
    [.write 0 "b" 2 true, .write 50 "c" 3 true] "c" 200 200
    (by decide) (by decide) (by decide) (by decide) (by decide) (by decide)
    (by decide)

/-- Counterexample to claim C4: the file is unreadable when the debounce
timer fires for a write with a fresh mtime.  The cycle is skipped (nothing
emitted, not fatal) — but `lastMtime` was already advanced to the new mtime
before the failing read, so the next raw event for the same write finds
`stats.mtimeMs === lastMtime` and returns without retrying the read: nothing
is ever delivered for this write (`emitted = []`, exactly one read attempt). -/
theorem c4_counterexample :
    (List.foldl (step targetName) c4state c4trace).emitted = []
    ∧ (List.foldl (step targetName) c4state c4trace).reads = 1
    ∧ (List.foldl (step targetName) c4state c4trace).lastMtime = 2 := by
  decide

/-- Claim C4 (amended): when the file is unreadable at debounce-fire time the
cycle is skipped without being fatal (nothing emitted, nothing in flight,
the watch continues), but `lastMtime` is recorded before the read, so a
subsequent raw event for the same write observes an unchanged mtime and does
not retry the read; content is delivered only once a write advances the
mtime again. -/
theorem c4_amended (w : String) (s : DetState) (t d t2 t3 : Nat)
    (htimer : s.timer = some d) (hdue : d ≤ t)
    (hex : s.fileExists = true) (hrd : s.readable = false)
    (hm : s.fileMtime ≠ s.lastMtime)
    (hdue2 : t2 + debounceMs ≤ t3) :
    (List.foldl (step w) s
        [.timerFire t, .chmod true, .fsEvent t2 w, .timerFire t3]).emitted
      = s.emitted
    ∧ (List.foldl (step w) s
        [.timerFire t, .chmod true, .fsEvent t2 w, .timerFire t3]).inFlight
      = s.inFlight
    ∧ (List.foldl (step w) s
        [.timerFire t, .chmod true, .fsEvent t2 w, .timerFire t3]).reads
      = s.reads + 1
    ∧ (List.foldl (step w) s
        [.timerFire t, .chmod true, .fsEvent t2 w, .timerFire t3]).lastMtime
      = s.fileMtime := by
  have h1 : step w s (.timerFire t)
      = { s with timer := none, lastMtime := s.fileMtime,
                 reads := s.reads + 1 } := by
    simp [step, htimer, Nat.not_lt.mpr hdue, hex, hm, hrd]
  simp only [List.foldl_cons, List.foldl_nil, h1]
  simp [step, Nat.not_lt.mpr hdue2, hex]

/-- Witness for C4 (amended) on the concrete C4 trace state. -/
theorem c4_amended_witness :
    (List.foldl (step targetName) c4fire
        [.timerFire 150, .chmod true, .fsEvent 200 targetName, .timerFire 350]).emitted
      = []
    ∧ (List.foldl (step targetName) c4fire
        [.timerFire 150, .chmod true, .fsEvent 200 targetName, .timerFire 350]).inFlight
      = []
    ∧ (List.foldl (step targetName) c4fire
        [.timerFire 150, .chmod true, .fsEvent 200 targetName, .timerFire 350]).reads
      = 1
    ∧ (List.foldl (step targetName) c4fire
        [.timerFire 150, .chmod true, .fsEvent 200 targetName, .timerFire 350]).lastMtime
      = 2 :=
  c4_amended targetName c4fire 150 150 200 350
    rfl (by decide) rfl rfl (by decide) (by decide)

/-- Counterexample to claim C1: on the concrete trace `c1trace` the sync of
Z is still in flight (no `syncComplete` has occurred) when the debounce
timer fires for the coalesced A/B events, and the code starts the B sync
anyway — two sync attempts are in flight at once, refuting "at most one sync
attempt is in flight".  (The B sync did apply the latest content B, and only
one further sync started.) -/
theorem c1_counterexample :
    ¬ ((List.foldl (step targetName) c1state c1trace).inFlight.length ≤ 1)
    ∧ (List.foldl (step targetName) c1state c1trace).inFlight = ["Z", "B"]
    ∧ (List.foldl (step targetName) c1state c1trace).emitted = ["Z", "B"] := by
  decide

/-- Claim C1 (amended): coalescing is provided only by the 150ms debounce
window, not by any in-flight flag.  If events for A and then B arrive within
one debounce window of each other while a sync of Z is in flight, exactly one
further sync starts and it applies B (not A, and not A then B); but that sync
starts while Z's sync is still in flight (`inFlight = [z, b]` afterwards) —
the code neither waits for the current sync to complete nor limits the number
of in-flight sync attempts.  The intermediate timer attempt at `t1` inside
the window is a non-event. -/
theorem c1_amended (w : String) (s : DetState) (z a b : String)
    (ta t1 tb tf ma mb : Nat)
    (hz : s.inFlight = [z])
    (h1 : t1 < ta + debounceMs)
    (hfire : tb + debounceMs ≤ tf)
    (hm : mb ≠ s.lastMtime) :
    (List.foldl (step w) s
        [.write ta a ma true, .timerFire t1, .write tb b mb true,
         .timerFire tf]).emitted
      = s.emitted ++ [b]
    ∧ (List.foldl (step w) s
        [.write ta a ma true, .timerFire t1, .write tb b mb true,
         .timerFire tf]).inFlight
      = [z, b] := by
  have hA : step w s (.write ta a ma true)
      = { s with fileExists := true, fileContent := a, fileMtime := ma,
                 readable := true, timer := some (ta + debounceMs) } := rfl
  simp only [List.foldl_cons, List.foldl_nil, hA]
  rw [step_timerFire_early w _ t1 (ta + debounceMs) rfl h1]
  have hB : step w
        { s with fileExists := true, fileContent := a, fileMtime := ma,
                 readable := true, timer := some (ta + debounceMs) }
        (.write tb b mb true)
      = { s with fileExists := true, fileContent := b, fileMtime := mb,
                 readable := true, timer := some (tb + debounceMs) } := rfl
  rw [hB]
  constructor
  · simp [step, Nat.not_lt.mpr hfire, hm]
  · simp [step, Nat.not_lt.mpr hfire, hm, hz]

/-- Witness for C1 (amended) at the post-Z-sync state of the C1 trace. -/
theorem c1_amended_witness :
    (List.foldl (step targetName)
        { fileExists := true, fileMtime := 2, fileContent := "Z",
          readable := true, lastMtime := 2, timer := none,
          inFlight := ["Z"], emitted := ["Z"], reads := 1 }
        [.write 200 "A" 3 true, .timerFire 250, .write 300 "B" 4 true,
         .timerFire 450]).emitted
      = ["Z", "B"]
    ∧ (List.foldl (step targetName)
        { fileExists := true, fileMtime := 2, fileContent := "Z",
          readable := true, lastMtime := 2, timer := none,
          inFlight := ["Z"], emitted := ["Z"], reads := 1 }
        [.write 200 "A" 3 true, .timerFire 250, .write 300 "B" 4 true,
         .timerFire 450]).inFlight
      = ["Z", "B"] :=
  c1_amended targetName
    { fileExists := true, fileMtime := 2, fileContent := "Z",
      readable := true, lastMtime := 2, timer := none,
      inFlight := ["Z"], emitted := ["Z"], reads := 1 }
    "Z" "A" "B" 200 250 300 450 3 4 rfl (by decide) (by decide) (by decide)

/-- Counterexample to claim C2: on `pageC2` the content-editable node is
present and editable (the degraded path is available and the selector wait
succeeds), but `#code .cm-editor` is absent — the evaluate callback throws
"CodeMirror editor element not found" to the caller before trying any of the
five strategies, instead of yielding NotFound and feeding the degraded
injection path. -/
theorem c2_counterexample :
    updateREPLContext pageC2 "x" = .error "CodeMirror editor element not found"
    ∧ truthy (contentElem pageC2) = true
    ∧ pageC2.contentIsEditable = true := ⟨rfl, rfl, rfl⟩

/-- Claim C2 (amended): provided the editor root element `#code .cm-editor`
is present, the locator tries the five strategies in order with the first
truthy result winning (`firstTruthy` over the ordered strategy list); when
all five fail the handle is falsy (NotFound) and the callback feeds the
degraded contenteditable path without throwing — provided the content
element is present and editable; when it is not, or when the editor root
element itself is missing, the callback throws, and `updateREPLContext` logs
and rethrows that error to the caller. -/
theorem c2_amended (p : PageModel) (c : String)
    (hed : truthy p.editorElement = true)
    (h1 : truthy (method1 p) = false) (h2 : truthy (method2 p) = false)
    (h3 : truthy (method3 p) = false) (h4 : truthy (method4 p) = false)
    (h5 : truthy (method5 p) = false) :
    locateEditorView p
      = firstTruthy [method1 p, method2 p, method3 p, method4 p, method5 p]
    ∧ truthy (locateEditorView p) = false
    ∧ updateEvalCallback p c
      = (if truthy (contentElem p) && p.contentIsEditable then
           .ok (.contenteditable c.length c)
         else
           .error "CodeMirror EditorView not accessible via any known method") := by
  have heq := locateEditorView_eq_firstTruthy p
  have hloc : truthy (locateEditorView p) = false := by
    rw [heq]; simp only [firstTruthy, h1, h2, h3, h4, h5]; simp [truthy]
  refine ⟨heq, hloc, ?_⟩
  simp [updateEvalCallback, hed, hloc]

/-- Witness for C2 (amended): on `pageC2w` every strategy fails and the
editable content node receives the degraded write. -/
theorem c2_amended_witness :
    locateEditorView pageC2w
      = firstTruthy [method1 pageC2w, method2 pageC2w, method3 pageC2w,
                     method4 pageC2w, method5 pageC2w]
    ∧ truthy (locateEditorView pageC2w) = false
    ∧ updateEvalCallback pageC2w "hi"
      = (if truthy (contentElem pageC2w) && pageC2w.contentIsEditable then
           .ok (.contenteditable "hi".length "hi")
         else
           .error "CodeMirror EditorView not accessible via any known method") :=
  c2_amended pageC2w "hi" rfl rfl rfl rfl rfl rfl

/-- Claim C6 (confirmed): whenever the located handle exposes a
state-with-document property (`state` an object whose `doc` carries the
document, with `length` `n`) and a callable `dispatch`, the injector takes
the transactional path: it returns the API outcome whose dispatched
transaction removes the range from 0 to the current document length and
inserts the new content — never the contenteditable fallback, so a Degraded
outcome cannot occur for a valid handle. -/
theorem c6_transactional (p : PageModel) (c : String) (sid did n : Nat)
    (hed : truthy p.editorElement = true)
    (hloc : truthy (locateEditorView p) = true)
    (hstate : getProp p.heap (locateEditorView p) "state" = .obj sid)
    (hdisp : getProp p.heap (locateEditorView p) "dispatch" = .func)
    (hdoc : getProp p.heap (.obj sid) "doc" = .obj did)
    (hlen : getProp p.heap (.obj did) "length" = .num n) :
    updateEvalCallback p c
      = .ok (.api (.num n) { txFrom := 0, txTo := .num n, insert := c }) := by
  simp only [updateEvalCallback, hed, hloc, hstate, hdisp, hdoc, hlen]
  simp [truthy]

/-- Witness for C6: on `pageC6w` method 1 finds the view and the injector
dispatches the full-document replacement `0 .. 7` with the new content. -/
theorem c6_transactional_witness :
    updateEvalCallback pageC6w "abc"
      = .ok (.api (.num 7) { txFrom := 0, txTo := .num 7, insert := "abc" }) :=
  c6_transactional pageC6w "abc" 3 4 7 rfl rfl rfl rfl rfl rfl

/-- Counterexample to claim C7: on `pageC7` no trigger selector matches, the
second pass matches the "play" button, and its `click()` throws.  The
exception is not caught inside the evaluate callback (only the first pass has
a per-selector `try`), so the keyboard-shortcut fallback is never attempted
and `updateREPLContext` rethrows — the sync cycle aborts on evaluation
failure. -/
theorem c7_counterexample :
    triggerEvaluation pageC7 = .error "TypeError: boom"
    ∧ updateREPLContext pageC7 "x" = .error "TypeError: boom" := ⟨rfl, rfl⟩

/-- Claim C7 (amended): when neither selector pass matches a control — the
first pass absorbs raising selectors and failing clicks selector-by-selector,
the second pass simply finds no matching button — the keyboard-shortcut
fallback (focus the content-editable region, press Control+Enter) is always
attempted, provided the content region is clickable; but an exception thrown
while activating a second-pass match propagates, aborting the sync cycle
without the fallback (see the counterexample). -/
theorem c7_amended (p : PageModel)
    (hfp : firstPassResult p = none)
    (hsp : secondPassMatch p = none)
    (hck : p.contentClickable = true) :
    triggerEvaluation p = .ok .keyboard := by
  simp [triggerEvaluation, hfp, hsp, hck]

/-- Witness for C7 (amended): on `pageC7w` one selector raises (and is
swallowed), no button matches, and the keyboard fallback runs. -/
theorem c7_amended_witness : triggerEvaluation pageC7w = .ok .keyboard :=
  c7_amended pageC7w (by decide) (by decide) rfl

/-- Every exit taken inside the argument loop goes through `usage()`, which
prints the usage text and calls `process.exit(0)` — the exit code is always
0, also on the "No file specified." and "Unknown argument" error paths. -/
theorem parseArgsGo_exit (li : Int) : ∀ (args : List String) (acc : Option String)
    (v : Int) (code : Nat) (pu : Bool),
    parseArgsGo li args acc v = .exited code pu → code = 0 ∧ pu = true := by
  intro args
  induction args with
  | nil =>
    intro acc v code pu h
    cases acc with
    | none =>
      simp only [parseArgsGo] at h
      injection h with hc hp
      exact ⟨hc.symm, hp.symm⟩
    | some f => simp only [parseArgsGo] at h; cases h
  | cons a rest ih =>
    intro acc v code pu h
    rw [parseArgsGo.eq_def] at h
    simp only at h
    by_cases h1 : a = ""
    · rw [if_pos h1] at h
      exact ih acc v code pu h
    · rw [if_neg h1] at h
      by_cases h2 : a = "-h" ∨ a = "--help"
      · rw [if_pos h2] at h
        injection h with hc hp
        exact ⟨hc.symm, hp.symm⟩
      · rw [if_neg h2] at h
        by_cases h3 : strStartsWith a "-v" = true
        · rw [if_pos h3] at h
          exact ih acc (li - (vCount a : Int)) code pu h
        · rw [if_neg h3] at h
          cases acc with
          | none => exact ih (some a) v code pu h
          | some f =>
            injection h with hc hp
            exact ⟨hc.symm, hp.symm⟩

/-- Counterexample to claim C3: with no positional file path the CLI prints
usage but exits with code 0, not non-zero; with a non-existent file path it
exits 1 but prints an error message, not the usage text. -/
theorem c3_counterexample :
    cliStartup 0 (fun _ => false) (fun _ => false) (fun s => s) []
      = .usageExit 0
    ∧ cliStartup 0 (fun _ => false) (fun _ => false) (fun s => s)
        ["beats.strudel"]
      = .errorExit 1 "File does not exist: beats.strudel" := ⟨rfl, rfl⟩

/-- Claim C3 (amended): every invocation that makes the parser exit — no
positional file path, a help flag, or an unknown extra argument — prints
usage and exits with code 0 (`usage()` always calls `process.exit(0)`); the
help flag in particular prints usage and exits 0 as claimed; an invocation
whose file path does not resolve to an existing regular file exits 1 after
printing an error message, without printing usage (`errorExit`, not
`usageExit`). -/
theorem c3_amended (li : Int) (fsEx fsIsF : String → Bool)
    (res : String → String) (args : List String) :
    (∀ code pu, parseArgs li args = .exited code pu → code = 0 ∧ pu = true)
    ∧ (∀ rest : List String, parseArgs li ("-h" :: rest) = .exited 0 true
        ∧ parseArgs li ("--help" :: rest) = .exited 0 true)
    ∧ (∀ f v, parseArgs li args = .proceed f v → fsEx (res f) = false →
        cliStartup li fsEx fsIsF res args
          = .errorExit 1 ("File does not exist: " ++ res f))
    ∧ (∀ f v, parseArgs li args = .proceed f v → fsEx (res f) = true →
        fsIsF (res f) = false →
        cliStartup li fsEx fsIsF res args
          = .errorExit 1 ("File is not a file: " ++ res f)) := by
  refine ⟨?_, ?_, ?_, ?_⟩
  · intro code pu h
    exact parseArgsGo_exit li args none li code pu h
  · intro rest
    exact ⟨rfl, rfl⟩
  · intro f v hp hex
    simp [cliStartup, hp, hex]
  · intro f v hp hex hisf
    simp [cliStartup, hp, hex, hisf]

/-- Witness for C3 (amended) at concrete inputs: a help invocation exits 0
with usage; a path rejected by the filesystem exits 1 with the error
message. -/
theorem c3_amended_witness :
    parseArgs 0 ["-h", "x"] = .exited 0 true
    ∧ cliStartup 0 (fun _ => false) (fun _ => false) (fun s => s) ["a.str"]
      = .errorExit 1 "File does not exist: a.str" := by
  have h := c3_amended 0 (fun _ => false) (fun _ => false) (fun s => s) ["a.str"]
  exact ⟨(h.2.1 ["x"]).1, h.2.2.1 "a.str" 0 rfl rfl⟩

/-- Counterexample to claim C8: a watcher-level error triggers the orderly
shutdown (watcher closed, browser closed, error printed) but terminates with
exit code 0 — `cleanup()` ends in `process.exit(0)` — not the non-zero code
the claim requires. -/
theorem c8_counterexample :
    (watcherErrorHandler sysRunning).exitCode = some 0
    ∧ (watcherErrorHandler sysRunning).watcherClosed = true
    ∧ (watcherErrorHandler sysRunning).browserClosed = true
    ∧ (watcherErrorHandler sysRunning).errorLogged = true := by decide

/-- Claim C8 (amended): on a watcher-level error the handler logs the error
message and performs the orderly shutdown — closing the watcher when one is
active and the browser when one is active — and then terminates, but with
exit code 0 (the graceful-shutdown path), not a non-zero code. -/
theorem c8_amended (s : SysState) (halive : s.exitCode = none) :
    watcherErrorHandler s
      = { watcherActive := s.watcherActive, browserActive := s.browserActive,
          watcherClosed := s.watcherActive || s.watcherClosed,
          browserClosed := s.browserActive || s.browserClosed,
          errorLogged := true, exitCode := some 0 } := by
  cases hw : s.watcherActive <;> cases hb : s.browserActive <;>
    simp [watcherErrorHandler, cleanup, exitProc, halive, hw, hb]

/-- Witness for C8 (amended) at the live system state. -/
theorem c8_amended_witness :
    watcherErrorHandler sysRunning
      = { watcherActive := true, browserActive := true, watcherClosed := true,
          browserClosed := true, errorLogged := true, exitCode := some 0 } :=
  c8_amended sysRunning rfl

/-- Claim C10 (confirmed): if the initial injection of the file content
throws, the catch block awaits `cleanup()`, which closes the browser and
terminates the process with exit code 0 — so the `process.exit(1)` statement
after it never executes, and `fs.watch` is never installed: the sync loop
never starts. -/
theorem c10_initial_failure (s : SysState) (halive : s.exitCode = none)
    (hw : s.watcherActive = false) (hb : s.browserActive = true) :
    (startupRun true s).exitCode = some 0
    ∧ (startupRun true s).watcherActive = false
    ∧ (startupRun true s).browserClosed = true
    ∧ (startupRun true s).errorLogged = true := by
  simp [startupRun, initialLoad, startWatcher, cleanup, exitProc, halive, hw, hb]

/-- Witness for C10 at the boot-time system state. -/
theorem c10_initial_failure_witness :
    (startupRun true sysBoot).exitCode = some 0
    ∧ (startupRun true sysBoot).watcherActive = false
    ∧ (startupRun true sysBoot).browserClosed = true
    ∧ (startupRun true sysBoot).errorLogged = true :=
  c10_initial_failure sysBoot rfl rfl rfl
